import Mathlib

/-!
Verification of the OpenUDS tunnel control-plane endpoint.

The central artifact is `Tunnel.get` in
`server/src/uds/REST/methods/tunnel.py`, embedded below as `tunnelGet`:
a pure function from the request (source ip, path arguments, GET
parameters) and the external collaborators (trusted-source predicate,
ticket store, ip parser, clock, fresh-ticket supply) to the REST
response together with the ordered trace of external calls the handler
performs.  A raised `AccessDenied` is the `.error` case of the result.

Collaborators whose code is not part of the analysed sources
(`isTrustedSource`, `TicketStore`, `net.ipToLong`) are abstracted as
function parameters; only their results matter for the handler's
control flow.  The tunnel test client `open_tunnel_client` from
`tunnel-server/test/utils/tuntools.py` is embedded separately as the
sequence of wire-level actions it performs.
-/

/-- `MAX_SESSION_LENGTH` constant of `uds/REST/methods/tunnel.py`
(seconds of validity of the notify ticket created at session start). -/
def MAX_SESSION_LENGTH : Nat := 60*60*24*7

/-- The fields of a UDS user that `Tunnel.get` reads: `name`,
`pretty_name` and its `manager` (an opaque reference used only as a log
target, modelled by a numeric identity). -/
structure User where
  name : String
  pretty_name : String
  manager : Nat
  deriving Repr, DecidableEq

/-- The fields of a user service that `Tunnel.get` reads: the service
itself as a log target (`svcId`), its `unique_id` and its
`deployed_service` (an opaque reference, modelled by an identity). -/
structure UserService where
  svcId : Nat
  unique_id : String
  deployed_service : Nat
  deriving Repr, DecidableEq

/-- The optional `extra` mapping stored with a tunnel ticket: key `t`
holds the original connect ticket, key `b` the session start unix time. -/
structure TicketExtra where
  t : Option String
  b : Option Int
  deriving Repr, DecidableEq

/-- The tuple `(user, userService, host, port, extra)` returned by
`models.TicketStore.get_for_tunnel`. -/
structure TunnelTicket where
  user : User
  userService : UserService
  host : String
  port : Nat
  extra : Option TicketExtra
  deriving Repr, DecidableEq

/-- A failed `TicketStore.get_for_tunnel` call (a raised exception):
either the ticket is invalid / expired / already used, or a transient
operational error occurred.  Each carries the exception message. -/
inductive StoreFailure where
  | invalidTicket (msg : String)
  | operational (msg : String)
  deriving Repr, DecidableEq

/-- The message of the exception a store failure raises. -/
def StoreFailure.msg : StoreFailure → String
  | .invalidTicket m => m
  | .operational m => m

/-- A target of `log.doLog`: the user's manager or the user service. -/
inductive LogOwner where
  | manager (id : Nat)
  | service (id : Nat)
  deriving Repr, DecidableEq

/-- One external call performed by `Tunnel.get`, in program order:
the `TicketStore.get_for_tunnel` lookup, the `events.addEvent`
tunnel-access event, a `log.doLog` line, the
`TicketStore.create_for_tunnel` call (with the arguments it receives:
user service, port, host, the `extra` values `t` and `b`, and the
validity), and a `logger.info` line from the exception handler. -/
inductive TraceEvent where
  | storeLookup (ticket : String)
  | tunnelAccessEvent (deployedService : Nat)
      (username srcip dstip uniqueid : String)
  | doLog (owner : LogOwner) (msg : String)
  | createTicket (userServiceId : Nat) (port : Nat) (host : String)
      (extra_t : String) (extra_b : Int) (validity : Nat)
  | loggerInfo (msg : String)
  deriving Repr, DecidableEq

/-- The error a REST handler can raise here. -/
inductive RestError where
  | accessDenied
  deriving Repr, DecidableEq

/-- The mapping `Tunnel.get` returns: either the empty mapping `{}`
(stop branch) or exactly the keys `host`, `port`, `notify`. -/
inductive TunnelData where
  | empty
  | conn (host : String) (port : Nat) (notify : String)
  deriving Repr, DecidableEq

deriving instance DecidableEq for Except

/-- A GET request to the tunnel endpoint: source ip, path arguments
(`self._args`) and GET parameters (`self._params`). -/
structure TunnelRequest where
  ip : String
  args : List String
  params : List (String × String)
  deriving Repr, DecidableEq

/-- The log message of the stop branch of `Tunnel.get`. -/
def stopMsg (uname tpre host : String) (port : Nat)
    (sent recv : String) (totalTime : Int) : String :=
  s!"User {uname} stopped tunnel {tpre}... to {host}:{port}: u:{sent}/d:{recv}/t:{totalTime}."

/-- The log message of the session-start branch of `Tunnel.get`. -/
def startMsg (uname a0pre host : String) (port : Nat) (a1 : String) : String :=
  s!"User {uname} started tunnel {a0pre}... to {host}:{port} from {a1}."

/-- Shallow embedding of `Tunnel.get` of
`server/src/uds/REST/methods/tunnel.py`.

Parameters stand for the collaborators the handler calls:
`isTrustedSource` (from `uds.core.auths.auth`), `store`
(`TicketStore.get_for_tunnel`; `.error` models a raised exception),
`ipToLong` (`uds.core.util.net.ipToLong` on the first 32 characters of
the second argument), `now` (`models.getSqlDatetimeAsUnix()`) and
`newNotifyTicket` (the ticket string `TicketStore.create_for_tunnel`
returns).  The result is the REST response paired with the trace of
external calls; every exception raised inside the `try` block is
logged by `logger.info` and turned into `AccessDenied`. -/
def tunnelGetArgs (isTrustedSource : String → Bool)
    (store : String → Except StoreFailure TunnelTicket)
    (ipToLong : String → Int) (now : Int) (newNotifyTicket : String)
    (ip a0 a1 : String) (params : List (String × String)) :
    Except RestError TunnelData × List TraceEvent :=
  if !(isTrustedSource ip) || a0.length != 48 then
    (.error .accessDenied, [])
  else
    match store a0 with
    | .error f => (.error .accessDenied, [.storeLookup a0, .loggerInfo f.msg])
    | .ok tk =>
      if a1.take 4 == "stop" then
        match params.lookup "sent" with
        | none => (.error .accessDenied, [.storeLookup a0, .loggerInfo "sent"])
        | some sent =>
          match params.lookup "recv" with
          | none => (.error .accessDenied, [.storeLookup a0, .loggerInfo "recv"])
          | some recv =>
            let extra := tk.extra.getD ⟨none, none⟩
            let totalTime : Int := now - (extra.b.getD (now - 1))
            let tpre := (extra.t.getD "").take 8
            let msg := stopMsg tk.user.name tpre tk.host tk.port sent recv totalTime
            (.ok .empty,
              [.storeLookup a0,
               .doLog (.manager tk.user.manager) msg,
               .doLog (.service tk.userService.svcId) msg])
      else
        if ipToLong (a1.take 32) = 0 then
          (.error .accessDenied, [.storeLookup a0, .loggerInfo "Invalid from IP"])
        else
          let msg := startMsg tk.user.name (a0.take 8) tk.host tk.port a1
          (.ok (.conn tk.host tk.port newNotifyTicket),
            [.storeLookup a0,
             .tunnelAccessEvent tk.userService.deployed_service
               tk.user.pretty_name a1 tk.host tk.userService.unique_id,
             .doLog (.manager tk.user.manager) msg,
             .doLog (.service tk.userService.svcId) msg,
             .createTicket tk.userService.svcId tk.port tk.host a0 now
               MAX_SESSION_LENGTH])

/-- Shallow embedding of `Tunnel.get`: a request whose argument list is
not exactly two elements is rejected immediately (mirroring
`len(self._args) != 2` in the guard); otherwise `tunnelGetArgs`
processes the two path arguments. -/
def tunnelGet (isTrustedSource : String → Bool)
    (store : String → Except StoreFailure TunnelTicket)
    (ipToLong : String → Int) (now : Int) (newNotifyTicket : String)
    (req : TunnelRequest) :
    Except RestError TunnelData × List TraceEvent :=
  match req.args with
  | [a0, a1] =>
    tunnelGetArgs isTrustedSource store ipToLong now newNotifyTicket
      req.ip a0 a1 req.params
  | _ => (.error .accessDenied, [])

/-- `tunnelGet` on a two-argument request is `tunnelGetArgs`. -/
theorem tunnelGet_two_args (ts : String → Bool)
    (store : String → Except StoreFailure TunnelTicket) (ipf : String → Int)
    (now : Int) (nt : String) (ip a0 a1 : String)
    (params : List (String × String)) :
    tunnelGet ts store ipf now nt ⟨ip, [a0, a1], params⟩
      = tunnelGetArgs ts store ipf now nt ip a0 a1 params := rfl

/-- A 48-character ticket used by concrete witnesses. -/
def t48 : String := "aaaaaaaaaaaaaaaaaaaaaaaaaaaaaaaaaaaaaaaaaaaaaaaa"

/-- A trusted-source predicate accepting every address (witnesses). -/
def trustAll : String → Bool := fun _ => true

/-- A sample user (witnesses). -/
def user0 : User := ⟨"admin", "Admin User", 7⟩

/-- A sample user service (witnesses). -/
def usvc0 : UserService := ⟨11, "uid-1", 21⟩

/-- A sample ticket-store record with full extra data (witnesses). -/
def tk0 : TunnelTicket := ⟨user0, usvc0, "10.0.0.5", 3389, some ⟨some "origtick", some 100⟩⟩

/-- A sample ticket-store record with no extra data (witnesses). -/
def tkNoExtra : TunnelTicket := ⟨user0, usvc0, "10.0.0.5", 3389, none⟩

/-- A store in which every lookup succeeds with `tk0` (witnesses). -/
def storeOk : String → Except StoreFailure TunnelTicket := fun _ => .ok tk0

/-- A store in which every lookup fails as an invalid ticket (witnesses). -/
def storeFail : String → Except StoreFailure TunnelTicket :=
  fun _ => .error (.invalidTicket "expired ticket")

/-- An ip parser that parses every string to a nonzero value (witnesses). -/
def ipfOne : String → Int := fun _ => 1

/-- Branch lemma: guard passed, store lookup raises. -/
theorem tunnelGetArgs_store_err (ts : String → Bool)
    (store : String → Except StoreFailure TunnelTicket) (ipf : String → Int)
    (now : Int) (nt : String) (ip a0 a1 : String)
    (params : List (String × String)) (f : StoreFailure)
    (ht : ts ip = true) (h48 : a0.length = 48) (hf : store a0 = .error f) :
    tunnelGetArgs ts store ipf now nt ip a0 a1 params
      = (.error .accessDenied, [.storeLookup a0, .loggerInfo f.msg]) := by
  unfold tunnelGetArgs
  simp [ht, h48, hf]

/-- Branch lemma: guard passed, lookup succeeded, session-start path
(second argument does not begin with `stop`), source ip parses nonzero. -/
theorem tunnelGetArgs_start (ts : String → Bool)
    (store : String → Except StoreFailure TunnelTicket) (ipf : String → Int)
    (now : Int) (nt : String) (ip a0 a1 : String)
    (params : List (String × String)) (tk : TunnelTicket)
    (ht : ts ip = true) (h48 : a0.length = 48) (hst : store a0 = .ok tk)
    (hns : a1.take 4 ≠ "stop") (hip : ipf (a1.take 32) ≠ 0) :
    tunnelGetArgs ts store ipf now nt ip a0 a1 params
      = (.ok (.conn tk.host tk.port nt),
         [.storeLookup a0,
          .tunnelAccessEvent tk.userService.deployed_service
            tk.user.pretty_name a1 tk.host tk.userService.unique_id,
          .doLog (.manager tk.user.manager)
            (startMsg tk.user.name (a0.take 8) tk.host tk.port a1),
          .doLog (.service tk.userService.svcId)
            (startMsg tk.user.name (a0.take 8) tk.host tk.port a1),
          .createTicket tk.userService.svcId tk.port tk.host a0 now
            MAX_SESSION_LENGTH]) := by
  unfold tunnelGetArgs
  simp [ht, h48, hst, hns, hip]

/-- Branch lemma: session-start path with a source ip parsing to 0. -/
theorem tunnelGetArgs_start_badip (ts : String → Bool)
    (store : String → Except StoreFailure TunnelTicket) (ipf : String → Int)
    (now : Int) (nt : String) (ip a0 a1 : String)
    (params : List (String × String)) (tk : TunnelTicket)
    (ht : ts ip = true) (h48 : a0.length = 48) (hst : store a0 = .ok tk)
    (hns : a1.take 4 ≠ "stop") (hip : ipf (a1.take 32) = 0) :
    tunnelGetArgs ts store ipf now nt ip a0 a1 params
      = (.error .accessDenied,
         [.storeLookup a0, .loggerInfo "Invalid from IP"]) := by
  unfold tunnelGetArgs
  simp [ht, h48, hst, hns, hip]

/-- Branch lemma: stop path with both `sent` and `recv` present. -/
theorem tunnelGetArgs_stop_ok (ts : String → Bool)
    (store : String → Except StoreFailure TunnelTicket) (ipf : String → Int)
    (now : Int) (nt : String) (ip a0 a1 : String)
    (params : List (String × String)) (tk : TunnelTicket) (sent recv : String)
    (ht : ts ip = true) (h48 : a0.length = 48) (hst : store a0 = .ok tk)
    (hstop : a1.take 4 = "stop")
    (hsent : params.lookup "sent" = some sent)
    (hrecv : params.lookup "recv" = some recv) :
    tunnelGetArgs ts store ipf now nt ip a0 a1 params
      = (.ok .empty,
         [.storeLookup a0,
          .doLog (.manager tk.user.manager)
            (stopMsg tk.user.name (((tk.extra.getD ⟨none, none⟩).t.getD "").take 8)
              tk.host tk.port sent recv
              (now - ((tk.extra.getD ⟨none, none⟩).b.getD (now - 1)))),
          .doLog (.service tk.userService.svcId)
            (stopMsg tk.user.name (((tk.extra.getD ⟨none, none⟩).t.getD "").take 8)
              tk.host tk.port sent recv
              (now - ((tk.extra.getD ⟨none, none⟩).b.getD (now - 1))))]) := by
  unfold tunnelGetArgs
  simp [ht, h48, hst, hstop, hsent, hrecv]

/-- Branch lemma: stop path with the `sent` parameter missing. -/
theorem tunnelGetArgs_stop_no_sent (ts : String → Bool)
    (store : String → Except StoreFailure TunnelTicket) (ipf : String → Int)
    (now : Int) (nt : String) (ip a0 a1 : String)
    (params : List (String × String)) (tk : TunnelTicket)
    (ht : ts ip = true) (h48 : a0.length = 48) (hst : store a0 = .ok tk)
    (hstop : a1.take 4 = "stop") (hsent : params.lookup "sent" = none) :
    tunnelGetArgs ts store ipf now nt ip a0 a1 params
      = (.error .accessDenied, [.storeLookup a0, .loggerInfo "sent"]) := by
  unfold tunnelGetArgs
  simp [ht, h48, hst, hstop, hsent]

/-- Branch lemma: stop path with the `recv` parameter missing. -/
theorem tunnelGetArgs_stop_no_recv (ts : String → Bool)
    (store : String → Except StoreFailure TunnelTicket) (ipf : String → Int)
    (now : Int) (nt : String) (ip a0 a1 : String)
    (params : List (String × String)) (tk : TunnelTicket) (sent : String)
    (ht : ts ip = true) (h48 : a0.length = 48) (hst : store a0 = .ok tk)
    (hstop : a1.take 4 = "stop")
    (hsent : params.lookup "sent" = some sent)
    (hrecv : params.lookup "recv" = none) :
    tunnelGetArgs ts store ipf now nt ip a0 a1 params
      = (.error .accessDenied, [.storeLookup a0, .loggerInfo "recv"]) := by
  unfold tunnelGetArgs
  simp [ht, h48, hst, hstop, hsent, hrecv]

/-- C1: when the ticket-store lookup of the first path argument fails
(expired, unknown or already used: the lookup raises), `Tunnel.get`
raises `AccessDenied` and returns no connection parameters. -/
theorem C1_redemption_failure_denied (ts : String → Bool)
    (store : String → Except StoreFailure TunnelTicket) (ipf : String → Int)
    (now : Int) (nt : String) (req : TunnelRequest) (f : StoreFailure)
    (hf : store (req.args.headD "") = .error f) :
    (tunnelGet ts store ipf now nt req).1 = .error .accessDenied := by
  obtain ⟨ip, args, params⟩ := req
  rcases args with _ | ⟨a0, _ | ⟨a1, _ | ⟨a2, rest⟩⟩⟩
  · rfl
  · rfl
  · simp only [List.headD] at hf
    rw [tunnelGet_two_args]
    unfold tunnelGetArgs
    split
    · rfl
    · simp [hf]
  · rfl

/-- Witness for C1 at a concrete request whose ticket lookup fails. -/
theorem C1_witness :
    storeFail ((⟨"1.2.3.4", [t48, "0.0.0.0"], []⟩ : TunnelRequest).args.headD "")
        = .error (.invalidTicket "expired ticket") ∧
    (tunnelGet trustAll storeFail ipfOne 0 "n"
        ⟨"1.2.3.4", [t48, "0.0.0.0"], []⟩).1 = .error .accessDenied :=
  ⟨rfl, C1_redemption_failure_denied trustAll storeFail ipfOne 0 "n"
    ⟨"1.2.3.4", [t48, "0.0.0.0"], []⟩ (.invalidTicket "expired ticket") rfl⟩

/-- C2: a request whose first path argument is not exactly 48
characters long is rejected with `AccessDenied` and the ticket store is
never consulted (the trace is empty: no `storeLookup` call). -/
theorem C2_bad_ticket_length_denied (ts : String → Bool)
    (store : String → Except StoreFailure TunnelTicket) (ipf : String → Int)
    (now : Int) (nt : String) (ip a0 : String) (rest : List String)
    (params : List (String × String)) (h : a0.length ≠ 48) :
    tunnelGet ts store ipf now nt ⟨ip, a0 :: rest, params⟩
        = (.error .accessDenied, []) ∧
    ∀ t, TraceEvent.storeLookup t
        ∉ (tunnelGet ts store ipf now nt ⟨ip, a0 :: rest, params⟩).2 := by
  have hg : tunnelGet ts store ipf now nt ⟨ip, a0 :: rest, params⟩
      = (.error .accessDenied, []) := by
    rcases rest with _ | ⟨a1, _ | ⟨a2, rs⟩⟩
    · rfl
    · rw [tunnelGet_two_args]
      unfold tunnelGetArgs
      simp [h]
    · rfl
  exact ⟨hg, by rw [hg]; intro t; simp⟩

/-- Witness for C2 at a concrete request with a 3-character ticket. -/
theorem C2_witness :
    ("abc" : String).length ≠ 48 ∧
    tunnelGet trustAll storeOk ipfOne 0 "n" ⟨"1.2.3.4", ["abc", "0.0.0.0"], []⟩
        = (.error .accessDenied, []) :=
  ⟨by decide, (C2_bad_ticket_length_denied trustAll storeOk ipfOne 0 "n"
    "1.2.3.4" "abc" ["0.0.0.0"] [] (by decide)).1⟩

/-- C3: a request from a source address that is not trusted is rejected
with `AccessDenied` and the ticket store is never consulted. -/
theorem C3_untrusted_source_denied (ts : String → Bool)
    (store : String → Except StoreFailure TunnelTicket) (ipf : String → Int)
    (now : Int) (nt : String) (req : TunnelRequest) (h : ts req.ip = false) :
    tunnelGet ts store ipf now nt req = (.error .accessDenied, []) ∧
    ∀ t, TraceEvent.storeLookup t ∉ (tunnelGet ts store ipf now nt req).2 := by
  have hg : tunnelGet ts store ipf now nt req = (.error .accessDenied, []) := by
    obtain ⟨ip, args, params⟩ := req
    simp only at h
    rcases args with _ | ⟨a0, _ | ⟨a1, _ | ⟨a2, rest⟩⟩⟩
    · rfl
    · rfl
    · rw [tunnelGet_two_args]
      unfold tunnelGetArgs
      simp [h]
    · rfl
  exact ⟨hg, by rw [hg]; intro t; simp⟩

/-- Witness for C3 at a concrete request from an untrusted address. -/
theorem C3_witness :
    (fun (_ : String) => false) "9.9.9.9" = false ∧
    tunnelGet (fun _ => false) storeOk ipfOne 0 "n"
        ⟨"9.9.9.9", [t48, "0.0.0.0"], []⟩ = (.error .accessDenied, []) :=
  ⟨rfl, (C3_untrusted_source_denied (fun _ => false) storeOk ipfOne 0 "n"
    ⟨"9.9.9.9", [t48, "0.0.0.0"], []⟩ rfl).1⟩

/-- GET parameters of a well-formed stop report (witnesses). -/
def stopParams : List (String × String) := [("sent", "10"), ("recv", "20")]

/-- C4 as stated is false: an invalid/expired/already-used ticket and a
transient operational store failure produce the *same* result at the
redemption interface — both are turned into the single `AccessDenied`
by the catch-all exception handler of `Tunnel.get`. -/
theorem C4_counterexample :
    (tunnelGet trustAll (fun _ => .error (.invalidTicket "unknown ticket"))
        ipfOne 100 "n" ⟨"1.2.3.4", [t48, "stop"], stopParams⟩).1
      = .error .accessDenied ∧
    (tunnelGet trustAll (fun _ => .error (.operational "control plane db unavailable"))
        ipfOne 100 "n" ⟨"1.2.3.4", [t48, "stop"], stopParams⟩).1
      = .error .accessDenied ∧
    (tunnelGet trustAll (fun _ => .error (.invalidTicket "unknown ticket"))
        ipfOne 100 "n" ⟨"1.2.3.4", [t48, "stop"], stopParams⟩).1
      = (tunnelGet trustAll (fun _ => .error (.operational "control plane db unavailable"))
        ipfOne 100 "n" ⟨"1.2.3.4", [t48, "stop"], stopParams⟩).1 :=
  ⟨rfl, rfl, rfl⟩

/-- C4 amended: every failed redemption, of either failure class,
produces the identical `AccessDenied` response; the two classes are
told apart only by the exception message in the server-side
`logger.info` line, never by the response. -/
theorem C4_failure_response_uniform (ts : String → Bool)
    (store : String → Except StoreFailure TunnelTicket) (ipf : String → Int)
    (now : Int) (nt : String) (ip a0 a1 : String)
    (params : List (String × String)) (f : StoreFailure)
    (ht : ts ip = true) (h48 : a0.length = 48) (hf : store a0 = .error f) :
    tunnelGet ts store ipf now nt ⟨ip, [a0, a1], params⟩
      = (.error .accessDenied, [.storeLookup a0, .loggerInfo f.msg]) := by
  rw [tunnelGet_two_args]
  exact tunnelGetArgs_store_err ts store ipf now nt ip a0 a1 params f ht h48 hf

/-- Witness for the amended C4 at a concrete failing request. -/
theorem C4_witness :
    trustAll "1.2.3.4" = true ∧ t48.length = 48 ∧
    storeFail t48 = .error (.invalidTicket "expired ticket") ∧
    tunnelGet trustAll storeFail ipfOne 100 "n" ⟨"1.2.3.4", [t48, "stop"], stopParams⟩
      = (.error .accessDenied,
         [.storeLookup t48, .loggerInfo "expired ticket"]) :=
  ⟨rfl, by decide, rfl,
   C4_failure_response_uniform trustAll storeFail ipfOne 100 "n" "1.2.3.4" t48
     "stop" stopParams (.invalidTicket "expired ticket") rfl (by decide) rfl⟩

/-- C5 as stated is false: a stop report carrying only the stop-ticket
(path), `sent` and `recv` is processed successfully, and adding a
duration/elapsed-seconds parameter changes neither the response nor any
side effect — the endpoint never consumes such a parameter. -/
theorem C5_counterexample :
    tunnelGet trustAll storeOk ipfOne 1000 "n"
        ⟨"1.2.3.4", [t48, "stop"], stopParams⟩
      = tunnelGet trustAll storeOk ipfOne 1000 "n"
          ⟨"1.2.3.4", [t48, "stop"],
           stopParams ++ [("duration", "999"), ("elapsed", "5")]⟩ ∧
    (tunnelGet trustAll storeOk ipfOne 1000 "n"
        ⟨"1.2.3.4", [t48, "stop"], stopParams⟩).1 = .ok .empty :=
  ⟨rfl, rfl⟩

/-- C5 amended: the stop-report call carries the stop-ticket (path
argument) and the `sent` and `recv` parameters only; the handler's
response and side effects depend on the GET parameters exclusively
through the lookups of `sent` and `recv` (elapsed time is computed
server-side from the stored start timestamp, not taken from the
request). -/
theorem C5_params_only_sent_recv (ts : String → Bool)
    (store : String → Except StoreFailure TunnelTicket) (ipf : String → Int)
    (now : Int) (nt : String) (ip : String) (args : List String)
    (p1 p2 : List (String × String))
    (hs : p1.lookup "sent" = p2.lookup "sent")
    (hr : p1.lookup "recv" = p2.lookup "recv") :
    tunnelGet ts store ipf now nt ⟨ip, args, p1⟩
      = tunnelGet ts store ipf now nt ⟨ip, args, p2⟩ := by
  rcases args with _ | ⟨a0, _ | ⟨a1, _ | ⟨a2, rest⟩⟩⟩
  · rfl
  · rfl
  · rw [tunnelGet_two_args, tunnelGet_two_args]
    unfold tunnelGetArgs
    rw [hs, hr]
  · rfl

/-- Witness for the amended C5: two stop requests differing in an extra
`duration` parameter but agreeing on `sent` and `recv`. -/
theorem C5_witness :
    (stopParams.lookup "sent"
        = (stopParams ++ [("duration", "999")]).lookup "sent") ∧
    (stopParams.lookup "recv"
        = (stopParams ++ [("duration", "999")]).lookup "recv") ∧
    tunnelGet trustAll storeOk ipfOne 1000 "n" ⟨"1.2.3.4", [t48, "stop"], stopParams⟩
      = tunnelGet trustAll storeOk ipfOne 1000 "n"
          ⟨"1.2.3.4", [t48, "stop"], stopParams ++ [("duration", "999")]⟩ :=
  ⟨rfl, rfl,
   C5_params_only_sent_recv trustAll storeOk ipfOne 1000 "n" "1.2.3.4"
     [t48, "stop"] stopParams (stopParams ++ [("duration", "999")]) rfl rfl⟩

/-- C6: a successful redemption on the session-start path creates one
notify ticket whose stored extra data records the original connect
ticket (`t`) and the start time (`b` = now) with validity
`MAX_SESSION_LENGTH`, and returns exactly the destination host, the
destination port and the newly created notify ticket. -/
theorem C6_session_start_response (ts : String → Bool)
    (store : String → Except StoreFailure TunnelTicket) (ipf : String → Int)
    (now : Int) (nt : String) (ip a0 a1 : String)
    (params : List (String × String)) (tk : TunnelTicket)
    (ht : ts ip = true) (h48 : a0.length = 48) (hst : store a0 = .ok tk)
    (hns : a1.take 4 ≠ "stop") (hip : ipf (a1.take 32) ≠ 0) :
    tunnelGet ts store ipf now nt ⟨ip, [a0, a1], params⟩
      = (.ok (.conn tk.host tk.port nt),
         [.storeLookup a0,
          .tunnelAccessEvent tk.userService.deployed_service
            tk.user.pretty_name a1 tk.host tk.userService.unique_id,
          .doLog (.manager tk.user.manager)
            (startMsg tk.user.name (a0.take 8) tk.host tk.port a1),
          .doLog (.service tk.userService.svcId)
            (startMsg tk.user.name (a0.take 8) tk.host tk.port a1),
          .createTicket tk.userService.svcId tk.port tk.host a0 now
            MAX_SESSION_LENGTH]) := by
  rw [tunnelGet_two_args]
  exact tunnelGetArgs_start ts store ipf now nt ip a0 a1 params tk
    ht h48 hst hns hip

/-- Witness for C6 at a concrete session-start request. -/
theorem C6_witness :
    ("192.168.1.1" : String).take 4 ≠ "stop" ∧
    ipfOne ("192.168.1.1".take 32) ≠ 0 ∧
    (tunnelGet trustAll storeOk ipfOne 500 "newticket"
        ⟨"1.2.3.4", [t48, "192.168.1.1"], []⟩).1
      = .ok (.conn "10.0.0.5" 3389 "newticket") :=
  ⟨by decide, by decide, by
    rw [C6_session_start_response trustAll storeOk ipfOne 500 "newticket"
      "1.2.3.4" t48 "192.168.1.1" [] tk0 rfl (by decide) rfl (by decide) (by decide)]
    rfl⟩

/-- An ip parser that parses every string to zero (witnesses). -/
def ipfZero : String → Int := fun _ => 0

/-- C8: with a valid ticket, a request whose second path argument does
not begin with the four characters `stop` takes the session-start path:
it is rejected with `AccessDenied` exactly when the first 32 characters
of that argument parse to the zero ip, and otherwise produces the
session-start connection response (never the stop-report path's empty
mapping). -/
theorem C8_non_stop_is_session_start (ts : String → Bool)
    (store : String → Except StoreFailure TunnelTicket) (ipf : String → Int)
    (now : Int) (nt : String) (ip a0 a1 : String)
    (params : List (String × String)) (tk : TunnelTicket)
    (ht : ts ip = true) (h48 : a0.length = 48) (hst : store a0 = .ok tk)
    (hns : a1.take 4 ≠ "stop") :
    (ipf (a1.take 32) = 0 →
      tunnelGet ts store ipf now nt ⟨ip, [a0, a1], params⟩
        = (.error .accessDenied,
           [.storeLookup a0, .loggerInfo "Invalid from IP"])) ∧
    (ipf (a1.take 32) ≠ 0 →
      (tunnelGet ts store ipf now nt ⟨ip, [a0, a1], params⟩).1
        = .ok (.conn tk.host tk.port nt)) := by
  constructor
  · intro hip
    rw [tunnelGet_two_args]
    exact tunnelGetArgs_start_badip ts store ipf now nt ip a0 a1 params tk
      ht h48 hst hns hip
  · intro hip
    rw [tunnelGet_two_args,
      tunnelGetArgs_start ts store ipf now nt ip a0 a1 params tk
        ht h48 hst hns hip]

/-- Witness for C8 at a concrete request whose source-ip field parses
to zero. -/
theorem C8_witness :
    ("0.0.0.0" : String).take 4 ≠ "stop" ∧
    ipfZero ("0.0.0.0".take 32) = 0 ∧
    tunnelGet trustAll storeOk ipfZero 0 "n"
        ⟨"1.2.3.4", [t48, "0.0.0.0"], []⟩
      = (.error .accessDenied,
         [.storeLookup t48, .loggerInfo "Invalid from IP"]) :=
  ⟨by decide, rfl,
   (C8_non_stop_is_session_start trustAll storeOk ipfZero 0 "n" "1.2.3.4" t48
     "0.0.0.0" [] tk0 rfl (by decide) rfl (by decide)).1 rfl⟩

/-- Modelled from the spec: tickets are "single-use, time-bounded" and
redemption of an expired ticket fails; the `TicketStore` model itself
is not among the analysed sources.  A ticket created at unix time
`created` with validity `validity` seconds is still retrievable at time
`now` iff at most `validity` seconds have elapsed. -/
def ticketAvailable (created : Int) (validity : Nat) (now : Int) : Bool :=
  now - created ≤ (validity : Int)

/-- C9: every notify ticket `Tunnel.get` creates is created with
validity `MAX_SESSION_LENGTH` = 60*60*24*7 = 604800 seconds (7 days),
so a ticket whose stop report arrives more than 7 days after the
session start time is no longer retrievable (its lookup fails, which by
C1 is answered with `AccessDenied`). -/
theorem C9_notify_ticket_validity (ts : String → Bool)
    (store : String → Except StoreFailure TunnelTicket) (ipf : String → Int)
    (now : Int) (nt : String) (req : TunnelRequest)
    (usId p : Nat) (h t0 : String) (b : Int) (v : Nat)
    (hmem : TraceEvent.createTicket usId p h t0 b v
      ∈ (tunnelGet ts store ipf now nt req).2)
    (b2 now2 : Int) (hexp : now2 - b2 > (MAX_SESSION_LENGTH : Int)) :
    v = MAX_SESSION_LENGTH ∧ MAX_SESSION_LENGTH = 604800 ∧
    ticketAvailable b2 MAX_SESSION_LENGTH now2 = false := by
  refine ⟨?_, by decide, ?_⟩
  · obtain ⟨ip, args, params⟩ := req
    rcases args with _ | ⟨a0, _ | ⟨a1, _ | ⟨a2, rest⟩⟩⟩
    · simp [tunnelGet] at hmem
    · simp [tunnelGet] at hmem
    · rw [tunnelGet_two_args] at hmem
      unfold tunnelGetArgs at hmem
      split at hmem
      · simp at hmem
      · split at hmem
        · simp at hmem
        · split at hmem
          · split at hmem
            · simp at hmem
            · split at hmem
              · simp at hmem
              · simp at hmem
          · split at hmem
            · simp at hmem
            · simp at hmem
              exact hmem.2.2.2.2.2
    · simp [tunnelGet] at hmem
  · simp only [ticketAvailable, MAX_SESSION_LENGTH] at hexp ⊢
    simp only [decide_eq_false_iff_not]
    omega

/-- Witness for C9: a concrete session start creating a notify ticket
with validity 604800, and a stop report 604801 seconds after a session
started at time 0 finding the ticket expired. -/
theorem C9_witness :
    (TraceEvent.createTicket 11 3389 "10.0.0.5" t48 500 604800
        ∈ (tunnelGet trustAll storeOk ipfOne 500 "n"
            ⟨"1.2.3.4", [t48, "192.168.1.1"], []⟩).2) ∧
    ((604801 : Int) - 0 > (MAX_SESSION_LENGTH : Int)) ∧
    (604800 = MAX_SESSION_LENGTH ∧ MAX_SESSION_LENGTH = 604800 ∧
      ticketAvailable 0 MAX_SESSION_LENGTH 604801 = false) :=
  ⟨by decide, by decide,
   C9_notify_ticket_validity trustAll storeOk ipfOne 500 "n"
     ⟨"1.2.3.4", [t48, "192.168.1.1"], []⟩ 11 3389 "10.0.0.5" t48 500 604800
     (by decide) 0 604801 (by decide)⟩

/-- A store whose ticket has no extra data (witnesses). -/
def storeNoExtra : String → Except StoreFailure TunnelTicket :=
  fun _ => .ok tkNoExtra

/-- C10: a stop report with both `sent` and `recv` present succeeds and
returns the empty mapping even when the stored extra data lacks the
start timestamp — the elapsed time then defaults to
`now - (now - 1) = 1` second — while a stop request missing `sent` or
missing `recv` is rejected with `AccessDenied`. -/
theorem C10_stop_report (ts : String → Bool)
    (store : String → Except StoreFailure TunnelTicket) (ipf : String → Int)
    (now : Int) (nt : String) (ip a0 a1 : String)
    (params params2 params3 : List (String × String))
    (sent recv s3 : String) (tk : TunnelTicket)
    (ht : ts ip = true) (h48 : a0.length = 48) (hst : store a0 = .ok tk)
    (hstop : a1.take 4 = "stop")
    (hb : (tk.extra.getD ⟨none, none⟩).b = none)
    (hsent : params.lookup "sent" = some sent)
    (hrecv : params.lookup "recv" = some recv)
    (hm2 : params2.lookup "sent" = none)
    (h3s : params3.lookup "sent" = some s3)
    (h3r : params3.lookup "recv" = none) :
    tunnelGet ts store ipf now nt ⟨ip, [a0, a1], params⟩
      = (.ok .empty,
         [.storeLookup a0,
          .doLog (.manager tk.user.manager)
            (stopMsg tk.user.name
              (((tk.extra.getD ⟨none, none⟩).t.getD "").take 8)
              tk.host tk.port sent recv 1),
          .doLog (.service tk.userService.svcId)
            (stopMsg tk.user.name
              (((tk.extra.getD ⟨none, none⟩).t.getD "").take 8)
              tk.host tk.port sent recv 1)]) ∧
    (tunnelGet ts store ipf now nt ⟨ip, [a0, a1], params2⟩).1
      = .error .accessDenied ∧
    (tunnelGet ts store ipf now nt ⟨ip, [a0, a1], params3⟩).1
      = .error .accessDenied := by
  refine ⟨?_, ?_, ?_⟩
  · rw [tunnelGet_two_args,
      tunnelGetArgs_stop_ok ts store ipf now nt ip a0 a1 params tk sent recv
        ht h48 hst hstop hsent hrecv, hb]
    norm_num
  · rw [tunnelGet_two_args,
      tunnelGetArgs_stop_no_sent ts store ipf now nt ip a0 a1 params2 tk
        ht h48 hst hstop hm2]
  · rw [tunnelGet_two_args,
      tunnelGetArgs_stop_no_recv ts store ipf now nt ip a0 a1 params3 tk s3
        ht h48 hst hstop h3s h3r]

/-- Witness for C10: a concrete stop report against a ticket with no
stored extra data, plus the two rejected variants. -/
theorem C10_witness :
    (tkNoExtra.extra.getD ⟨none, none⟩).b = none ∧
    (tunnelGet trustAll storeNoExtra ipfOne 1000 "n"
        ⟨"1.2.3.4", [t48, "stop"], stopParams⟩).1 = .ok .empty ∧
    (tunnelGet trustAll storeNoExtra ipfOne 1000 "n"
        ⟨"1.2.3.4", [t48, "stop"], [("recv", "20")]⟩).1
      = .error .accessDenied ∧
    (tunnelGet trustAll storeNoExtra ipfOne 1000 "n"
        ⟨"1.2.3.4", [t48, "stop"], [("sent", "10")]⟩).1
      = .error .accessDenied :=
  ⟨rfl, by
    rw [(C10_stop_report trustAll storeNoExtra ipfOne 1000 "n" "1.2.3.4" t48
      "stop" stopParams [("recv", "20")] [("sent", "10")] "10" "20" "10"
      tkNoExtra rfl (by decide) rfl (by decide) rfl rfl rfl rfl rfl rfl).1],
   (C10_stop_report trustAll storeNoExtra ipfOne 1000 "n" "1.2.3.4" t48
      "stop" stopParams [("recv", "20")] [("sent", "10")] "10" "20" "10"
      tkNoExtra rfl (by decide) rfl (by decide) rfl rfl rfl rfl rfl rfl).2.1,
   (C10_stop_report trustAll storeNoExtra ipfOne 1000 "n" "1.2.3.4" t48
      "stop" stopParams [("recv", "20")] [("sent", "10")] "10" "20" "10"
      tkNoExtra rfl (by decide) rfl (by decide) rfl rfl rfl rfl rfl rfl).2.2⟩

/-- A wire-level action of the tunnel test client: bytes written to the
still-unencrypted socket, or the completion of the TLS handshake (after
which all writes travel inside the TLS channel). -/
inductive WireEvent where
  | rawSend (data : List Nat)
  | tlsEstablished
  deriving Repr, DecidableEq

/-- Shallow embedding of `open_tunnel_client` of
`tunnel-server/test/utils/tuntools.py` as the ordered wire actions it
performs.  `handshakeV1` stands for `consts.HANDSHAKE_V1` (modelled
from the spec: the fixed-length magic/version marker; the
`uds_tunnel.consts` module is not among the analysed sources).  With
`use_tunnel_handshake` the client opens a plain socket, sends the
handshake bytes on it, and only then upgrades the connection to TLS;
otherwise it opens a TLS connection directly. -/
def open_tunnel_client (handshakeV1 : List Nat)
    (use_tunnel_handshake : Bool) : List WireEvent :=
  if use_tunnel_handshake then
    [.rawSend handshakeV1, .tlsEstablished]
  else
    [.tlsEstablished]

/-- Whether any bytes are written on the raw (pre-TLS) socket before
the TLS handshake completes. -/
def sendsRawBeforeTls (evs : List WireEvent) : Bool :=
  (evs.takeWhile (fun e => e != WireEvent.tlsEstablished)).any
    (fun e => match e with | .rawSend _ => true | _ => false)

/-- C7 as stated is false: with the tunnel handshake enabled, the test
client sends the magic/version marker on the raw socket *before* TLS is
established (it is the first wire action, ahead of the TLS upgrade). -/
theorem C7_counterexample :
    sendsRawBeforeTls (open_tunnel_client [90, 77, 71, 66, 165, 1, 0] true)
      = true ∧
    (open_tunnel_client [90, 77, 71, 66, 165, 1, 0] true).head?
      = some (.rawSend [90, 77, 71, 66, 165, 1, 0]) :=
  ⟨rfl, rfl⟩

/-- C7 amended: when the tunnel handshake is used, the magic/version
marker is the client's first wire action, sent on the raw socket before
the TLS handshake; without it the client opens TLS directly and sends
nothing on the raw socket. -/
theorem C7_handshake_precedes_tls (hs : List Nat) :
    open_tunnel_client hs true = [.rawSend hs, .tlsEstablished] ∧
    open_tunnel_client hs false = [.tlsEstablished] ∧
    sendsRawBeforeTls (open_tunnel_client hs false) = false :=
  ⟨rfl, rfl, rfl⟩
